import Mathlib

/-!
Verification of the loan-repayment backend's payment reconciliation logic.

Shallow embedding of the Python sources:
  * `backend/models/loan.py`          — `Loan`, `Loan.process_payment`
  * `backend/models/transaction.py`   — `Transaction`, `generate_reference`,
    `Transaction.paid`, `mark_as_completed`
  * `backend/services/payment_service.py` — `check_payment_status`,
    `handle_paynow_result`
  * `backend/routes/webhook.py`       — `paynow_result`
  * `backend/routes/customer.py`      — `make_payment`, the
    `/payment/status/<reference>` route
  * `backend/utils/validators.py`     — `PaymentValidator.validate_reference`

Monetary values (`db.Numeric`, Python `Decimal`) are modelled as `ℚ`
(the arithmetic performed by the code on these columns is exact).
Wall-clock readings of `datetime.utcnow()` are modelled by an explicit
`now : Nat` argument.  Database state is modelled by the rows reachable
from one transaction: the transaction row itself and, when the
transaction is linked to a loan, that loan row.
-/

namespace LoanGenius

/-- From `backend/models/loan.py`: the columns of `Loan` that the payment
logic reads or writes.  `status` is the free-form string column
(`active`, `completed`, `defaulted`); `completed_at` and `updated_at` are
nullable/plain datetime columns modelled as `Option Nat` / `Nat`. -/
structure Loan where
  outstanding_balance : ℚ
  status : String
  completed_at : Option Nat
  updated_at : Nat
deriving Repr, DecidableEq

/-- From `backend/models/loan.py`, `Loan.process_payment` (lines 55-66):
subtract the amount from `outstanding_balance`; if the resulting balance is
`<= 0`, clamp it to zero, set `status = 'completed'` and stamp
`completed_at = utcnow()`; always stamp `updated_at`.  The method performs
no validation of `amount` and never raises. -/
def Loan.process_payment (loan : Loan) (amount : ℚ) (now : Nat) : Loan :=
  if loan.outstanding_balance - amount ≤ 0 then
    { loan with
        outstanding_balance := 0
        status := "completed"
        completed_at := some now
        updated_at := now }
  else
    { loan with
        outstanding_balance := loan.outstanding_balance - amount
        updated_at := now }

/-- Claim C4: for a loan `L` and amount `a` with `0 < a ≤ L.outstanding_balance`,
`Loan.process_payment` yields `outstanding_balance_before - a`, which is never
negative, and in the boundary case `a = L.outstanding_balance` the balance
becomes exactly `0` and the status becomes `completed`. -/
theorem c4_process_payment_decrements_exactly
    (loan : Loan) (a : ℚ) (now : Nat)
    (hpos : 0 < a) (hle : a ≤ loan.outstanding_balance) :
    (loan.process_payment a now).outstanding_balance
        = loan.outstanding_balance - a
    ∧ 0 ≤ (loan.process_payment a now).outstanding_balance
    ∧ (a = loan.outstanding_balance →
        (loan.process_payment a now).outstanding_balance = 0
        ∧ (loan.process_payment a now).status = "completed") := by
  unfold Loan.process_payment
  by_cases h : loan.outstanding_balance - a ≤ 0
  · rw [if_pos h]
    have hz : loan.outstanding_balance - a = 0 := le_antisymm h (by linarith)
    exact ⟨hz.symm, le_refl 0, fun _ => ⟨rfl, rfl⟩⟩
  · rw [if_neg h]
    exact ⟨rfl, (not_le.mp h).le, fun heq => (h (by rw [heq]; simp)).elim⟩

/-- Witness loan for C4: balance 1000, active, no completion stamp. -/
def c4Loan : Loan :=
  { outstanding_balance := 1000, status := "active",
    completed_at := none, updated_at := 0 }

/-- Witness for C4: paying exactly 1000 against a balance of 1000 ends at
balance 0 with status `completed`. -/
theorem c4_process_payment_decrements_exactly_witness :
    (0 : ℚ) < 1000 ∧ (1000 : ℚ) ≤ c4Loan.outstanding_balance
    ∧ ((c4Loan.process_payment 1000 7).outstanding_balance
          = c4Loan.outstanding_balance - 1000
      ∧ 0 ≤ (c4Loan.process_payment 1000 7).outstanding_balance
      ∧ ((1000 : ℚ) = c4Loan.outstanding_balance →
          (c4Loan.process_payment 1000 7).outstanding_balance = 0
          ∧ (c4Loan.process_payment 1000 7).status = "completed")) :=
  ⟨by norm_num, by norm_num [c4Loan],
    c4_process_payment_decrements_exactly c4Loan 1000 7
      (by norm_num) (by norm_num [c4Loan])⟩

/-- An already-completed loan: balance 0, completion stamped at time 10. -/
def c5Loan : Loan :=
  { outstanding_balance := 0, status := "completed",
    completed_at := some 10, updated_at := 10 }

/-- Claim C5 (code behaviour at the failing input): re-applying a payment of
50 to an already-completed loan does not signal anything — `process_payment`
is total and returns normally — and it overwrites the completion timestamp
`completed_at` from `some 10` to the new time `some 20`. -/
theorem c5_completed_loan_completed_at_overwritten :
    (c5Loan.process_payment 50 20).completed_at = some 20
    ∧ c5Loan.completed_at = some 10
    ∧ (c5Loan.process_payment 50 20).outstanding_balance = 0 := by
  refine ⟨?_, rfl, ?_⟩ <;>
    · unfold Loan.process_payment c5Loan
      norm_num

/-- An active loan with balance 500. -/
def c6Loan : Loan :=
  { outstanding_balance := 500, status := "active",
    completed_at := none, updated_at := 0 }

/-- Claim C6 (code behaviour at the failing input): `process_payment` with the
non-positive amount `-100` on an active loan of balance 500 raises no error
and *increases* the balance to 600, leaving the status `active`. -/
theorem c6_negative_amount_increases_balance :
    (c6Loan.process_payment (-100) 1).outstanding_balance = 600
    ∧ (c6Loan.process_payment (-100) 1).status = "active" := by
  constructor <;>
    · unfold Loan.process_payment c6Loan
      norm_num

/-- From `backend/models/transaction.py`: the columns of `Transaction` that
the reconciliation logic reads or writes.  `loan_id` is the nullable foreign
key; `paynow_result` stores the verbatim callback payload. -/
structure Transaction where
  reference : String
  amount : ℚ
  loan_id : Option Nat
  transaction_type : String
  status : String
  paid_at : Option Nat
  completed_at : Option Nat
  updated_at : Nat
  paynow_result : Option (List (String × String))
deriving Repr, DecidableEq

/-- Python truthiness of the nullable integer column `loan_id`
(`if transaction.loan_id:` is false for `None` and for `0`). -/
def truthyId : Option Nat → Bool
  | none => false
  | some i => i ≠ 0

/-- From `backend/models/transaction.py`, the `paid` property:
`paid_at is not None or status.lower() == 'paid'`. -/
def Transaction.paid (tx : Transaction) : Bool :=
  tx.paid_at.isSome || tx.status.toLower = "paid"

/-- From `backend/models/transaction.py`, `set_paynow_result`: store the
payload verbatim and stamp `updated_at`. -/
def Transaction.set_paynow_result (tx : Transaction)
    (result_data : List (String × String)) (now : Nat) : Transaction :=
  { tx with paynow_result := some result_data, updated_at := now }

/-- The database rows reachable from one transaction: the transaction row and
the loan row its `loan_id` points to (`none` when the transaction is not a
loan payment or the row is absent). -/
structure PState where
  tx : Transaction
  loan : Option Loan
deriving Repr, DecidableEq

/-- The gateway's answer to a status poll, as interpreted by the service:
`status.status` (a free-form string) and `status.paid` (a boolean). -/
structure PollStatus where
  status : String
  paid : Bool
deriving Repr, DecidableEq

/-- The fields of the dict returned by the service's `check_payment_status`
that the claims are about. -/
structure StatusResult where
  reference : String
  status : String
  paid : Bool
  loan_balance_updated : Bool
deriving Repr, DecidableEq

/-- From `backend/services/payment_service.py`, `check_payment_status`
(lines 274-322): look the transaction up by reference; poll the gateway
(the poll's answer is the `poll` argument — the gateway adapter is a pure
network boundary); overwrite `transaction.status` with the polled status
(`'unknown'` when falsy) and stamp `updated_at`; if the poll says paid,
stamp `paid_at` and, when the transaction is linked to an existing loan row,
decrement the loan's balance by the transaction amount, clamping at zero and
setting the loan status to `completed` — with **no** check that the
transaction was already settled.  This inline decrement does not stamp the
loan's `completed_at`. -/
def check_payment_status (st : PState) (reference : String)
    (poll : PollStatus) (now : Nat) : PState × Except String StatusResult :=
  if st.tx.reference ≠ reference then
    (st, .error "Transaction not found")
  else
    let statusStr := if poll.status = "" then "unknown" else poll.status
    let tx1 : Transaction := { st.tx with status := statusStr, updated_at := now }
    if poll.paid then
      let tx2 : Transaction := { tx1 with paid_at := some now }
      let loanUpd : Option Loan :=
        if truthyId st.tx.loan_id then
          match st.loan with
          | some loan =>
              some (if loan.outstanding_balance - st.tx.amount ≤ 0 then
                      { loan with status := "completed", outstanding_balance := 0 }
                    else
                      { loan with
                          outstanding_balance :=
                            loan.outstanding_balance - st.tx.amount })
          | none => none
        else st.loan
      ({ tx := tx2, loan := loanUpd },
        .ok { reference := reference, status := statusStr, paid := true,
              loan_balance_updated := truthyId st.tx.loan_id && poll.paid })
    else
      ({ tx := tx1, loan := st.loan },
        .ok { reference := reference, status := statusStr, paid := false,
              loan_balance_updated := truthyId st.tx.loan_id && poll.paid })

/-- A Paynow callback payload, keeping the two fields
`handle_paynow_result` reads (`reference`, `paynowreference`) plus the
verbatim form data that gets stored.  `none` models an absent key
(`dict.get` returns `None`). -/
structure ResultData where
  reference : Option String
  paynowreference : Option String
  form : List (String × String)
deriving Repr, DecidableEq

/-- From `backend/services/payment_service.py`, `handle_paynow_result`
(lines 396-430): read `reference` from the payload (falsy → return `False`);
look the transaction up (missing → return `False`); store the payload
verbatim; if `result_data.get('paynowreference') == 'Paid'` and the
transaction has a `loan_id`, decrement the loan balance by the transaction
amount (clamping at zero, setting the loan status to `completed`) — again
with **no** check that the transaction was already settled.  When `loan_id`
is set but the loan row is absent, `transaction.loan` is `None` and the
attribute access raises, which the handler turns into a rollback and
`False`. -/
def handle_paynow_result (st : PState) (result_data : ResultData)
    (now : Nat) : PState × Bool :=
  match result_data.reference with
  | none => (st, false)
  | some r =>
    if r = "" then (st, false)
    else if st.tx.reference = r then
      let tx1 := st.tx.set_paynow_result result_data.form now
      if result_data.paynowreference = some "Paid" ∧ truthyId st.tx.loan_id then
        match st.loan with
        | some loan =>
            ({ tx := tx1,
               loan := some (if loan.outstanding_balance - st.tx.amount ≤ 0 then
                       { loan with status := "completed", outstanding_balance := 0 }
                     else
                       { loan with
                           outstanding_balance :=
                             loan.outstanding_balance - st.tx.amount }) }, true)
        | none => (st, false)
      else ({ tx := tx1, loan := st.loan }, true)
    else (st, false)

/-- The loan-linked transaction used in the C1-C3 scenarios: amount 50,
linked to loan row 1, dispatched (status `sent`), not yet paid. -/
def scTx : Transaction :=
  { reference := "abcsl00a.20250101000000.L001", amount := 50,
    loan_id := some 1, transaction_type := "loan_payment", status := "sent",
    paid_at := none, completed_at := none, updated_at := 0,
    paynow_result := none }

/-- The loan behind `scTx`: active with balance 100. -/
def scLoan : Loan :=
  { outstanding_balance := 100, status := "active",
    completed_at := none, updated_at := 0 }

/-- Database state for the C1-C3 scenarios. -/
def scState : PState := { tx := scTx, loan := some scLoan }

/-- A gateway poll reporting the payment as paid. -/
def paidPoll : PollStatus := { status := "Paid", paid := true }

/-- Claim C1 (code behaviour at the failing input): with the gateway
reporting paid both times, the first `check_payment_status` call decrements
the loan balance from 100 to 50, and the second call — far from leaving the
balance unchanged — decrements it again, to 0, marking the loan `completed`
after only 50 of its 100 balance was actually paid twice over. -/
theorem c1_second_poll_decrements_again :
    (((check_payment_status scState scTx.reference paidPoll 1).1).loan.map
        Loan.outstanding_balance) = some 50
    ∧ (((check_payment_status
          (check_payment_status scState scTx.reference paidPoll 1).1
          scTx.reference paidPoll 2).1).loan.map
        Loan.outstanding_balance) = some 0 := by
  constructor <;>
    · unfold check_payment_status scState scTx scLoan paidPoll truthyId
      norm_num

/-- The success payload of the C2 scenario: its `paynowreference` field is
the string the handler compares against `'Paid'`. -/
def scPayload : ResultData :=
  { reference := some scTx.reference, paynowreference := some "Paid",
    form := [("reference", "abcsl00a.20250101000000.L001"),
             ("paynowreference", "Paid")] }

/-- Claim C2 (code behaviour at the failing input): handling the same success
payload twice is not idempotent — the first `handle_paynow_result` call
brings the loan balance from 100 to 50, the second brings it to 0. -/
theorem c2_second_callback_decrements_again :
    (((handle_paynow_result scState scPayload 1).1).loan.map
        Loan.outstanding_balance) = some 50
    ∧ (((handle_paynow_result
          (handle_paynow_result scState scPayload 1).1 scPayload 2).1).loan.map
        Loan.outstanding_balance) = some 0 := by
  constructor <;>
    · simp only [handle_paynow_result, scState, scTx, scLoan, scPayload,
        truthyId, Transaction.set_paynow_result, String.reduceEq, reduceIte]
      norm_num

/-- Claim C3 (code behaviour at the failing input): one legal interleaving of
a poll and a callback racing to settle `scTx` is the sequential schedule
poll-then-callback.  Under it the poll decrements the loan balance
(100 → 50) and the callback, instead of detecting the settled state and
becoming a no-op, applies a second ledger mutation (50 → 0). -/
theorem c3_poll_then_callback_mutates_twice :
    (((check_payment_status scState scTx.reference paidPoll 1).1).loan.map
        Loan.outstanding_balance) = some 50
    ∧ (((handle_paynow_result
          (check_payment_status scState scTx.reference paidPoll 1).1
          scPayload 2).1).loan.map
        Loan.outstanding_balance) = some 0 := by
  constructor <;>
    · simp only [handle_paynow_result, check_payment_status, scState, scTx,
        scLoan, scPayload, paidPoll, truthyId, Transaction.set_paynow_result,
        String.reduceEq, reduceIte]
      norm_num

/-- The response constructors of `backend/utils/responses.py` used by the
routes the claims are about. -/
inductive ApiResponse where
  | success
  | validationError (msg : String)
  | notFound (msg : String)
  | apiError (msg : String)
  | internalError (msg : String)
deriving Repr, DecidableEq

/-- The attributes defined on the `PaymentValidator` class in
`backend/utils/validators.py` (lines 9-133).  Note that `validate_amount`,
`validate_phone_number` and `validate_method` — the three methods
`backend/routes/customer.py` line 197-199 calls — are **not** among them,
and no other module defines or monkey-patches them. -/
def paymentValidatorAttrs : List String :=
  ["SUPPORTED_METHODS", "PHONE_PATTERN", "validate_payment_request",
   "validate_otp_request", "validate_reference"]

/-- The outcome of one `make_payment` request: the HTTP-level response,
whether a `Transaction` row was committed, and whether the payment gateway
was called. -/
structure MakePaymentOutcome where
  response : ApiResponse
  transactionCreated : Bool
  gatewayCalled : Bool
deriving Repr, DecidableEq

/-- From `backend/routes/customer.py`, `make_payment` (lines 183-257), for a
pre-authenticated customer posting a payment body.  The route first runs
`PaymentValidator.validate_amount(...)` inside a `try/except
ValidationError`; Python resolves the attribute on the class, and since
`PaymentValidator` defines no `validate_amount`, this raises
`AttributeError`, which falls through to the route's outer
`except Exception` handler: rollback and an internal-error response, before
any loan lookup, balance check, `Transaction(...)` construction or gateway
call.  The remaining branches (loan lookup filtered on `status='active'`,
the `amount > float(loan.outstanding_balance)` rejection, transaction
creation and the gateway dispatch) are transcribed for completeness but are
unreachable. -/
def make_payment (loan : Option Loan) (amount : ℚ) : MakePaymentOutcome :=
  if "validate_amount" ∈ paymentValidatorAttrs then
    match loan with
    | none =>
        { response := .notFound "Active loan not found",
          transactionCreated := false, gatewayCalled := false }
    | some l =>
        if amount > l.outstanding_balance then
          { response := .validationError "Amount exceeds outstanding balance",
            transactionCreated := false, gatewayCalled := false }
        else
          { response := .success,
            transactionCreated := true, gatewayCalled := true }
  else
    { response :=
        .internalError "Payment failed: AttributeError: validate_amount",
      transactionCreated := false, gatewayCalled := false }

/-- Claim C7 (code behaviour): every `make_payment` request — in particular
one whose amount exceeds the loan's outstanding balance — fails with an
internal error raised at the validation step, creates no `Transaction` row
and calls no gateway; the `AmountExceedsBalance`-style rejection branch is
unreachable. -/
theorem c7_make_payment_validation_crash :
    ∀ (loan : Option Loan) (amount : ℚ),
      (make_payment loan amount).response
          = .internalError "Payment failed: AttributeError: validate_amount"
      ∧ (make_payment loan amount).transactionCreated = false
      ∧ (make_payment loan amount).gatewayCalled = false := by
  intro loan amount
  unfold make_payment
  rw [if_neg (by decide)]
  exact ⟨rfl, rfl, rfl⟩

/-- An HTTP response of the webhook endpoint: the literal body and the
status code. -/
structure HttpResponse where
  body : String
  code : Nat
deriving Repr, DecidableEq

/-- From `backend/routes/webhook.py`, `paynow_result` (lines 52-69): pass
the form payload to `handle_paynow_result`; return `("OK", 200)` when it
reports success and `("ERROR", 500)` when it returns `False` (payload
without a reference, transaction not found, or an internal exception). -/
def paynow_result (st : PState) (data : ResultData) (now : Nat) :
    PState × HttpResponse :=
  let res := handle_paynow_result st data now
  if res.2 then (res.1, { body := "OK", code := 200 })
  else (res.1, { body := "ERROR", code := 500 })

/-- A callback payload whose reference matches no stored transaction. -/
def c8Payload : ResultData :=
  { reference := some "UNKNOWN_REF", paynowreference := some "Paid",
    form := [("reference", "UNKNOWN_REF"), ("paynowreference", "Paid")] }

/-- Claim C8 counterexample: a callback whose reference is unknown is *not*
acknowledged with a success response — the endpoint answers
`("ERROR", 500)`. -/
theorem c8_unknown_reference_returns_500 :
    (paynow_result scState c8Payload 3).2 = { body := "ERROR", code := 500 }
    ∧ (paynow_result scState c8Payload 3).2.code ≠ 200 := by
  constructor <;>
    · simp only [paynow_result, handle_paynow_result, scState, scTx, scLoan,
        c8Payload, truthyId, Transaction.set_paynow_result,
        String.reduceEq, reduceIte]
      norm_num

/-- Claim C8 as amended: the webhook answers `("OK", 200)` exactly when
`handle_paynow_result` succeeds — the payload carries a non-empty reference
that matches the stored transaction and the paid-branch does not hit a
dangling loan row — and `("ERROR", 500)` in every other case, in particular
when the transaction is not found. -/
theorem c8_amended_ack_iff_handler_succeeds :
    ∀ (st : PState) (data : ResultData) (now : Nat),
      ((paynow_result st data now).2 = { body := "OK", code := 200 }
        ∨ (paynow_result st data now).2 = { body := "ERROR", code := 500 })
      ∧ ((paynow_result st data now).2.code = 200 ↔
          (data.reference = some st.tx.reference ∧ st.tx.reference ≠ ""
            ∧ ¬(data.paynowreference = some "Paid"
                  ∧ truthyId st.tx.loan_id ∧ st.loan = none))) := by
  intro st data now
  obtain ⟨oref, opn, form⟩ := data
  unfold paynow_result handle_paynow_result
  cases oref with
  | none => simp
  | some r =>
    by_cases hr : r = ""
    · subst hr
      by_cases he : st.tx.reference = ""
      · simp [he]
      · simp [he, Ne.symm he]
    · by_cases he : st.tx.reference = r
      · subst he
        by_cases hp : opn = some "Paid" ∧ truthyId st.tx.loan_id
        · cases hl : st.loan with
          | some loan => simp [hr, hp, hl]
          | none => simp [hr, hp, hl]
        · simp only [hr, hp, String.reduceEq, reduceIte, if_true, if_false]
          simp [hp]
          exact ⟨hr, fun h1 h2 _ => hp ⟨h1, h2⟩⟩
      · simp [hr, he]
        intro h
        exact (he h.symm).elim

/-- The lowercase letter with index `i` in `string.ascii_lowercase`;
`random.choices(string.ascii_lowercase, k=3)` samples three of these. -/
def letterChar (i : Fin 26) : Char := Char.ofNat (97 + i.val)

/-- The three letters sampled by one `generate_reference` call. -/
structure RandomLetters where
  first : Fin 26
  second : Fin 26
  third : Fin 26
deriving Repr, DecidableEq

/-- Zero-padding of the loan id to three digits (Python format 03d). -/
def pad3 (n : Nat) : String :=
  let s := toString n
  String.mk (List.replicate (3 - s.length) '0' ++ s.data)

/-- From `backend/models/transaction.py` (lines 67-73): the `loan_ref`
component — the loan row's human code when the row exists, a padded
`L{id}` fallback, or `"GEN"` when the transaction has no `loan_id`. -/
def loan_ref_component (loan_id : Option Nat) (loanCode : Option String) :
    String :=
  match loan_id with
  | none => "GEN"
  | some i =>
      match loanCode with
      | some code => code
      | none => String.mk ("L".data ++ (pad3 i).data)

/-- From `backend/models/transaction.py`, `generate_reference` (lines 61-75):
`f"{random_prefix}sl00a.{timestamp}.{loan_ref}"`, where `random_prefix` is
the three sampled letters and `timestamp` is `strftime('%Y%m%d%H%M%S')`
(always 14 digits).  The reference is a pure function of these sampled and
clock values: no counter, no collision check. -/
def generate_reference (rl : RandomLetters) (timestamp loanRef : String) :
    String :=
  String.mk ([letterChar rl.first, letterChar rl.second, letterChar rl.third]
    ++ "sl00a.".data ++ timestamp.data ++ ['.'] ++ loanRef.data)

/-- One `create_transaction` call event: `callId` distinguishes the call,
the other fields are the values of the random draw and the clock at that
call. -/
structure CreationCall where
  callId : Nat
  letters : RandomLetters
  timestamp : String
  loanRef : String
deriving Repr, DecidableEq

/-- The reference string a call generates. -/
def CreationCall.reference (c : CreationCall) : String :=
  generate_reference c.letters c.timestamp c.loanRef

/-- First of two distinct creation calls landing in the same wall-clock
second with the same sampled letters. -/
def c9CallA : CreationCall :=
  { callId := 0, letters := { first := 0, second := 1, third := 2 },
    timestamp := "20250628143022", loanRef := "L001" }

/-- Second of the two calls: a different call event, identical samples. -/
def c9CallB : CreationCall :=
  { callId := 1, letters := { first := 0, second := 1, third := 2 },
    timestamp := "20250628143022", loanRef := "L001" }

/-- Claim C9 counterexample: two distinct transaction-creation calls — the
random draw and the second-granularity timestamp coincide, which no
mechanism in the code prevents — generate the identical reference string. -/
theorem c9_distinct_calls_same_reference :
    c9CallA ≠ c9CallB ∧ c9CallA.reference = c9CallB.reference :=
  ⟨by decide, rfl⟩

/-- `letterChar` is injective. -/
theorem letterChar_injective : ∀ (i j : Fin 26),
    letterChar i = letterChar j → i = j := by decide

/-- Two strings with the same character data are equal. -/
theorem string_eq_of_data_eq {s t : String} (h : s.data = t.data) : s = t := by
  cases s
  cases t
  exact congrArg String.mk h

/-- Claim C9 as amended: references of two creation calls coincide exactly
when the calls' sampled letters, timestamp and loan-code component all
coincide — distinctness is a function of the random draw and the clock, not
a guarantee of the construction. -/
theorem c9_amended_reference_collision_iff
    (c c' : CreationCall)
    (ht : c.timestamp.length = 14) (ht' : c'.timestamp.length = 14) :
    c.reference = c'.reference ↔
      (c.letters = c'.letters ∧ c.timestamp = c'.timestamp
        ∧ c.loanRef = c'.loanRef) := by
  constructor
  · intro h
    unfold CreationCall.reference generate_reference at h
    have hl : [letterChar c.letters.first, letterChar c.letters.second,
        letterChar c.letters.third]
        ++ "sl00a.".data ++ c.timestamp.data ++ ['.'] ++ c.loanRef.data
        = [letterChar c'.letters.first, letterChar c'.letters.second,
        letterChar c'.letters.third]
        ++ "sl00a.".data ++ c'.timestamp.data ++ ['.'] ++ c'.loanRef.data :=
      congrArg String.data h
    have h1 : ([letterChar c.letters.first, letterChar c.letters.second,
        letterChar c.letters.third]
        ++ ("sl00a.".data ++ (c.timestamp.data ++ ['.']))) ++ c.loanRef.data
        = ([letterChar c'.letters.first, letterChar c'.letters.second,
        letterChar c'.letters.third]
        ++ ("sl00a.".data ++ (c'.timestamp.data ++ ['.'])))
          ++ c'.loanRef.data := by
      simpa [List.append_assoc] using hl
    have hlen1 : ([letterChar c.letters.first, letterChar c.letters.second,
        letterChar c.letters.third]
        ++ ("sl00a.".data ++ (c.timestamp.data ++ ['.']))).length
        = ([letterChar c'.letters.first, letterChar c'.letters.second,
        letterChar c'.letters.third]
        ++ ("sl00a.".data ++ (c'.timestamp.data ++ ['.']))).length := by
      have h14 : c.timestamp.data.length = 14 := ht
      have h14' : c'.timestamp.data.length = 14 := ht'
      simp [List.length_append, h14, h14']
    obtain ⟨h2, hloan⟩ := List.append_inj h1 hlen1
    obtain ⟨hlet, h3⟩ := List.append_inj h2 (by simp)
    have h4 : c.timestamp.data ++ ['.'] = c'.timestamp.data ++ ['.'] :=
      (List.append_inj h3 rfl).2
    have hts : c.timestamp.data = c'.timestamp.data :=
      (List.append_inj h4 (ht.trans ht'.symm)).1
    refine ⟨?_, string_eq_of_data_eq hts, string_eq_of_data_eq hloan⟩
    simp only [List.cons.injEq, and_true] at hlet
    obtain ⟨e1, e2, e3⟩ := hlet
    have f1 := letterChar_injective _ _ e1
    have f2 := letterChar_injective _ _ e2
    have f3 := letterChar_injective _ _ e3
    calc c.letters
        = { first := c.letters.first, second := c.letters.second,
            third := c.letters.third } := rfl
      _ = { first := c'.letters.first, second := c'.letters.second,
            third := c'.letters.third } := by rw [f1, f2, f3]
      _ = c'.letters := rfl
  · intro ⟨h1, h2, h3⟩
    unfold CreationCall.reference generate_reference
    rw [h1, h2, h3]

/-- Witness for the amended C9: the two concrete calls of the
counterexample have 14-digit timestamps and their references coincide
because their samples coincide. -/
theorem c9_amended_reference_collision_iff_witness :
    c9CallA.timestamp.length = 14 ∧ c9CallB.timestamp.length = 14
    ∧ c9CallA.reference = c9CallB.reference :=
  ⟨by decide, by decide,
    (c9_amended_reference_collision_iff c9CallA c9CallB
        (by decide) (by decide)).mpr ⟨rfl, rfl, rfl⟩⟩

/-- The whitespace characters Python's `str.strip()` removes (space, tab,
newline, carriage return, vertical tab, form feed). -/
def isPySpace (ch : Char) : Bool :=
  (ch == ' ') || (ch == Char.ofNat 9) || (ch == Char.ofNat 10)
    || (ch == Char.ofNat 13) || (ch == Char.ofNat 11) || (ch == Char.ofNat 12)

/-- Python's `str.strip()`: drop leading and trailing whitespace. -/
def pyStrip (s : String) : String :=
  String.mk (((s.data.dropWhile isPySpace).reverse.dropWhile
    isPySpace).reverse)

/-- Membership in the regex character class `[A-Z0-9]`. -/
def isUpperOrDigit (ch : Char) : Bool :=
  (decide (Char.ofNat 65 ≤ ch) && decide (ch ≤ Char.ofNat 90))
    || (decide (Char.ofNat 48 ≤ ch) && decide (ch ≤ Char.ofNat 57))

/-- Transcription of the anchored regex `^(LOAN|TEST)_[A-Z0-9]{8}$` of
`PaymentValidator.validate_reference` (`backend/utils/validators.py` line
130): a full match is the 5-character head `LOAN_` or `TEST_` followed by
exactly 8 characters from `[A-Z0-9]`. -/
def matchesRefShape (s : List Char) : Bool :=
  ((s.take 5 == ['L', 'O', 'A', 'N', '_'])
      || (s.take 5 == ['T', 'E', 'S', 'T', '_']))
    && ((s.drop 5).length == 8)
    && (s.drop 5).all isUpperOrDigit

/-- From `backend/utils/validators.py`, `validate_reference` (lines
111-133): raise `ValidationError("Reference is required")` when the string
or its strip is falsy; otherwise strip it and raise
`ValidationError("Invalid reference format")` unless the stripped string
matches `^(LOAN|TEST)_[A-Z0-9]{8}$`. -/
def validate_reference (reference : String) : Except String String :=
  if reference = "" ∨ pyStrip reference = "" then
    .error "Reference is required"
  else if matchesRefShape (pyStrip reference).data then
    .ok (pyStrip reference)
  else
    .error "Invalid reference format"

/-- From `backend/models/transaction.py`, `mark_as_completed` (lines
115-127): set the transaction's status to `completed`, stamp `paid_at`,
`completed_at` and `updated_at`, and, when the transaction has a loan row
and is a loan payment, run `loan.process_payment(amount)`. -/
def mark_as_completed (st : PState) (now : Nat) : PState :=
  let tx1 : Transaction :=
    { st.tx with
        status := "completed"
        paid_at := some now
        completed_at := some now
        updated_at := now }
  if st.loan.isSome ∧ st.tx.transaction_type = "loan_payment" then
    { tx := tx1,
      loan := st.loan.map (fun l => l.process_payment st.tx.amount now) }
  else
    { tx := tx1, loan := st.loan }

/-- The observable outcome of one request to the customer status route:
the response and whether any `Transaction.query` database lookup ran. -/
structure StatusRouteOutcome where
  response : ApiResponse
  dbQueried : Bool
deriving Repr, DecidableEq

/-- From `backend/routes/customer.py`, `check_payment_status` (lines
297-332), for the authenticated owner of the transaction: validate the
reference first — a `ValidationError` is returned *before* any
`Transaction.query` lookup — then look the transaction up, run the
service-layer `check_payment_status`, and, when the result says paid and
the (identity-mapped, already service-mutated) transaction object is not
`paid`, run `mark_as_completed`. -/
def route_check_payment_status (st : PState) (reference : String)
    (poll : PollStatus) (now : Nat) : PState × StatusRouteOutcome :=
  match validate_reference reference with
  | .error e => (st, { response := .validationError e, dbQueried := false })
  | .ok r =>
    if st.tx.reference ≠ r then
      (st, { response := .notFound "Transaction not found", dbQueried := true })
    else
      match check_payment_status st r poll now with
      | (st1, .error e) =>
          (st1, { response := .apiError e, dbQueried := true })
      | (st1, .ok result) =>
          if result.paid && !(st1.tx.paid) then
            (mark_as_completed st1 now,
              { response := .success, dbQueried := true })
          else
            (st1, { response := .success, dbQueried := true })

/-- No sampled lowercase letter is whitespace. -/
theorem letterChar_not_space : ∀ i : Fin 26,
    isPySpace (letterChar i) = false := by decide

/-- No sampled lowercase letter is the uppercase `L`. -/
theorem letterChar_ne_upper_L : ∀ i : Fin 26, letterChar i ≠ 'L' := by decide

/-- No sampled lowercase letter is the uppercase `T`. -/
theorem letterChar_ne_upper_T : ∀ i : Fin 26, letterChar i ≠ 'T' := by decide

/-- Dropping trailing elements (via reverse/dropWhile/reverse) keeps a
non-matching head in place. -/
theorem dropTrailing_cons (p : Char → Bool) (c : Char) (l : List Char)
    (h : p c = false) :
    ((c :: l).reverse.dropWhile p).reverse
      = c :: (l.reverse.dropWhile p).reverse := by
  rw [List.reverse_cons, List.dropWhile_append]
  by_cases he : (l.reverse.dropWhile p).isEmpty = true
  · rw [if_pos he]
    have hnil : l.reverse.dropWhile p = [] := by
      cases hd : l.reverse.dropWhile p with
      | nil => rfl
      | cons x xs => rw [hd] at he; simp [List.isEmpty] at he
    have h1 : List.dropWhile p [c] = [c] := by
      rw [List.dropWhile_cons_of_neg]
      simp [h]
    rw [hnil, h1]
    simp
  · rw [if_neg he, List.reverse_append]
    simp

/-- `pyStrip` keeps a non-whitespace head character in place. -/
theorem pyStrip_data_cons (c : Char) (l : List Char)
    (h : isPySpace c = false) :
    (pyStrip (String.mk (c :: l))).data
      = c :: (l.reverse.dropWhile isPySpace).reverse := by
  unfold pyStrip
  show (((c :: l).dropWhile isPySpace).reverse.dropWhile isPySpace).reverse
      = _
  rw [List.dropWhile_cons_of_neg (by simp [h])]
  exact dropTrailing_cons isPySpace c l h

/-- A list headed by a sampled lowercase letter never matches the
`^(LOAN|TEST)_[A-Z0-9]{8}$` shape. -/
theorem matchesRefShape_letter_head (i : Fin 26) (l : List Char) :
    matchesRefShape (letterChar i :: l) = false := by
  unfold matchesRefShape
  have hL : ((letterChar i :: l).take 5 == ['L', 'O', 'A', 'N', '_'])
      = false := by
    rw [beq_eq_false_iff_ne]
    intro hcontra
    rw [List.take_succ_cons] at hcontra
    injection hcontra with h1 _
    exact letterChar_ne_upper_L i h1
  have hT : ((letterChar i :: l).take 5 == ['T', 'E', 'S', 'T', '_'])
      = false := by
    rw [beq_eq_false_iff_ne]
    intro hcontra
    rw [List.take_succ_cons] at hcontra
    injection hcontra with h1 _
    exact letterChar_ne_upper_T i h1
  rw [hL, hT]
  simp

/-- Every reference `generate_reference` can produce fails
`validate_reference` with the format error: its first character is a
sampled lowercase letter, which survives the strip and can never start a
`LOAN_`/`TEST_` match. -/
theorem generate_reference_fails_validate_reference
    (rl : RandomLetters) (ts lref : String) :
    validate_reference (generate_reference rl ts lref)
      = .error "Invalid reference format" := by
  have hdata : (generate_reference rl ts lref).data
      = letterChar rl.first
        :: ([letterChar rl.second, letterChar rl.third]
              ++ "sl00a.".data ++ ts.data ++ ['.'] ++ lref.data) := rfl
  have hmk : generate_reference rl ts lref
      = String.mk (letterChar rl.first
        :: ([letterChar rl.second, letterChar rl.third]
              ++ "sl00a.".data ++ ts.data ++ ['.'] ++ lref.data)) :=
    congrArg String.mk hdata
  rw [hmk]
  have hs := pyStrip_data_cons (letterChar rl.first)
    ([letterChar rl.second, letterChar rl.third]
      ++ "sl00a.".data ++ ts.data ++ ['.'] ++ lref.data)
    (letterChar_not_space rl.first)
  unfold validate_reference
  rw [if_neg ?hne]
  case hne =>
    intro hor
    cases hor with
    | inl hl => exact absurd (congrArg String.data hl) (by simp)
    | inr hr =>
        have := congrArg String.data hr
        rw [hs] at this
        exact absurd this (by simp)
  rw [if_neg ?hnm]
  case hnm =>
    rw [hs, matchesRefShape_letter_head]
    simp

/-- Claim C10: a reference of the shape produced by
`Transaction.generate_reference` — three sampled lowercase letters, the
`sl00a.` tag, any timestamp and any loan-code component — always fails
`PaymentValidator.validate_reference`, so the customer status route
answers it with the `ValidationError` response before any database lookup,
leaving the stored state untouched: the status of such a transaction can
never be retrieved through this endpoint. -/
theorem c10_generated_reference_rejected_before_lookup :
    ∀ (rl : RandomLetters) (ts lref : String) (st : PState)
      (poll : PollStatus) (now : Nat),
      validate_reference (generate_reference rl ts lref)
          = .error "Invalid reference format"
      ∧ route_check_payment_status st (generate_reference rl ts lref)
            poll now
          = (st, { response := .validationError "Invalid reference format",
                   dbQueried := false }) := by
  intro rl ts lref st poll now
  have hval := generate_reference_fails_validate_reference rl ts lref
  refine ⟨hval, ?_⟩
  unfold route_check_payment_status
  rw [hval]

end LoanGenius
